import Mathlib

/-!
# Verification of the grade-prediction / course-recommendation core

Shallow embedding of `src/backend/app/ml/predict.py` (classes `GradePredictor`
and `CourseRecommender`) and of the grade-range / letter-grade code of the
`predict_grade` endpoint in `src/backend/app/main.py`.

Modelling conventions:
* Python floats are modelled as `ℚ`.
* Python dicts keyed by strings are modelled as association lists
  `List (String × ℚ)`; `d.get(k, 0)` is `(d.lookup k).getD 0`, and insertion
  order of a dict built by a loop is the loop order.
* The fitted regression model and the fitted scaler are opaque artifacts
  (the spec treats them as black boxes with a `predict` capability), so they
  are parameters `model : List ℚ → ℚ` and `scaler : List ℚ → List ℚ`.
* The ensemble-spread standard deviation computed in `GradePredictor.predict`
  (`np.std(leaf_preds)`, with fallback `0.2`) is a nonnegative number whose
  exact value no claim depends on; it is a parameter `stdDev` together with
  the fact `0 ≤ stdDev` where needed.
* `pandas` DataFrames (`user_item_matrix`, `user_similarity`) are modelled by
  their index lists plus a cell function; `Series.nlargest(m)` with the
  default `keep='first'` is a stable descending sort followed by `take m`
  (`List.insertionSort` is stable, ties keep the original index order).
* The cosine-similarity row computed against the TF-IDF course-feature matrix
  in `get_content_based_scores` is floating-point numerics whose values no
  claim depends on; it is abstracted as a parameter `simRow : ℕ → ℚ`
  (similarity of the averaged enrolled profile to course number `i`).
  All branching around it is modelled exactly.
* The candidate set `set(cf) | set(cb)` in `recommend` has unspecified
  iteration order in Python; we fix the canonical first-occurrence order
  `(cf keys ++ cb keys).dedup`.  No claim depends on that order.
-/

namespace GradePred

/-- `np.clip(x, lo, hi)` (predict.py line 39). -/
def clip (x lo hi : ℚ) : ℚ := min hi (max lo x)

/-- The feature-extraction loop of `GradePredictor.predict` (predict.py
lines 30-32): values are read in the exact order of `self.feature_names`,
`features.get(feat_name, 0)` defaulting a missing name to `0`. -/
def featureValues (feature_names : List String) (features : List (String × ℚ)) : List ℚ :=
  feature_names.map (fun n => (features.lookup n).getD 0)

/-- The rest of `GradePredictor.predict` on an already-extracted value list:
scale, run the model, clip to `[0, 4]`, and pair with the confidence
interval `1.96 * std_dev` (predict.py lines 34-53). -/
def predictOnValues (model : List ℚ → ℚ) (scaler : List ℚ → List ℚ) (stdDev : ℚ)
    (vals : List ℚ) : ℚ × ℚ :=
  (clip (model (scaler vals)) 0 4, 196/100 * stdDev)

/-- `GradePredictor.predict` (predict.py lines 20-53). -/
def predict (model : List ℚ → ℚ) (scaler : List ℚ → List ℚ) (feature_names : List String)
    (stdDev : ℚ) (features : List (String × ℚ)) : ℚ × ℚ :=
  predictOnValues model scaler stdDev (featureValues feature_names features)

/-- `lower_bound = max(0.0, predicted_grade - confidence_interval)` and
`upper_bound = min(4.0, predicted_grade + confidence_interval)`
(main.py lines 320-322). -/
def gradeRange (pred ci : ℚ) : ℚ × ℚ := (max 0 (pred - ci), min 4 (pred + ci))

/-- `grade_to_letter` (main.py lines 324-344): nested `if`/`elif` chain,
inclusive lower bounds, evaluated top-down. -/
def grade_to_letter (g : ℚ) : String :=
  if g ≥ 37/10 then "A"
  else if g ≥ 33/10 then "A-"
  else if g ≥ 3 then "B+"
  else if g ≥ 27/10 then "B"
  else if g ≥ 23/10 then "B-"
  else if g ≥ 2 then "C+"
  else if g ≥ 17/10 then "C"
  else if g ≥ 13/10 then "C-"
  else if g ≥ 1 then "D"
  else "F"

/-- Modelled from the spec's words (the breakpoint table of §4.2), for the
refinement claim about the letter mapping: the fixed table, first match
wins, `"F"` when no breakpoint is reached. -/
def letterBreakpoints : List (ℚ × String) :=
  [(37/10, "A"), (33/10, "A-"), (3, "B+"), (27/10, "B"), (23/10, "B-"),
   (2, "C+"), (17/10, "C"), (13/10, "C-"), (1, "D")]

/-- Modelled from the spec's words: top-down first-match lookup in the
breakpoint table, inclusive lower bounds. -/
def letterOfTable (g : ℚ) : String :=
  match letterBreakpoints.find? (fun p => p.1 ≤ g) with
  | some p => p.2
  | none => "F"

/-- The recommender artifact (train.py `save_model`: `user_item_matrix`,
`user_similarity`, `course_features`).  `students` is the row index of the
user-item matrix and also the (identical, train.py lines 215-219) index and
columns of the similarity DataFrame; `courses` is the column index of the
user-item matrix; `cell u c` is `user_item_matrix.loc[u, c]`;
`sim u v` is `user_similarity.loc[u, v]`; `course_ids` is
`course_features['course_ids']`. -/
structure RecommenderArtifact where
  students : List String
  courses : List String
  cell : String → String → ℚ
  sim : String → String → ℚ
  course_ids : List String

/-- `Series.nlargest(m)` on a series with index `keys` and values `val`
(default `keep='first'`): the `m` largest entries, descending, ties kept in
index order; returns the index of the result.  `List.insertionSort` with a
total preorder is a stable sort, matching pandas' tie behaviour. -/
def nlargestIdx (m : ℕ) (keys : List String) (val : String → ℚ) : List String :=
  (List.insertionSort (fun a b => val b ≤ val a) keys).take m

/-- `self.user_similarity[student_id].nlargest(k + 1).index[1:]`
(predict.py line 91): column `student_id` of the similarity DataFrame has
value `sim u student_id` at row `u`; take the `k+1` largest and drop the
first entry. -/
def similarUsers (A : RecommenderArtifact) (s : String) (k : ℕ) : List String :=
  (nlargestIdx (k + 1) A.students (fun u => A.sim u s)).drop 1

/-- The per-course body of the scoring loop of `get_collaborative_scores`
(predict.py lines 98-112): neighbors with `rating > 0` contribute their
rating paired with `user_similarity.loc[student_id, similar_user]`; the
score is `weighted_sum / similarity_sum` when the similarity sum is
positive, else `0`, and `0` when no neighbor contributed. -/
def collabScore (A : RecommenderArtifact) (s : String) (nbrs : List String)
    (c : String) : ℚ :=
  let contrib := nbrs.filter (fun u => decide (0 < A.cell u c))
  if contrib = [] then 0
  else
    let ssum := (contrib.map (fun u => A.sim s u)).sum
    if 0 < ssum then ((contrib.map (fun u => A.cell u c * A.sim s u)).sum) / ssum
    else 0

/-- `CourseRecommender.get_collaborative_scores` (predict.py lines 77-114):
empty dict when the student has no row; otherwise one entry per course the
student has not rated (`loc[student_id, course_id] > 0` courses are
skipped), in column order. -/
def get_collaborative_scores (A : RecommenderArtifact) (s : String) (k : ℕ) :
    List (String × ℚ) :=
  if s ∈ A.students then
    (A.courses.filter (fun c => decide (¬ 0 < A.cell s c))).map
      (fun c => (c, collabScore A s (similarUsers A s k) c))
  else []

/-- `CourseRecommender.get_content_based_scores` (predict.py lines 116-151).
`simRow i` abstracts `similarities[i]`, the cosine similarity of the
averaged enrolled-course profile to course number `i` (a floating-point
quantity no claim depends on); the two cold-start branches and the
exclusion of enrolled courses in the personalized branch are exact. -/
def get_content_based_scores (course_ids : List String) (simRow : ℕ → ℚ)
    (enrolled_courses : List String) : List (String × ℚ) :=
  if enrolled_courses.isEmpty then course_ids.map (fun c => (c, 1/2))
  else
    let enrolled_indices :=
      (course_ids.enum.filter (fun p => decide (p.2 ∈ enrolled_courses))).map Prod.fst
    if enrolled_indices.isEmpty then course_ids.map (fun c => (c, 1/2))
    else
      (course_ids.enum.filter (fun p => decide (p.2 ∉ enrolled_courses))).map
        (fun p => (p.2, simRow p.1))

/-- `all_courses = set(cf_scores.keys()) | set(cb_scores.keys())`
(predict.py line 177), in canonical first-occurrence order (Python's set
iteration order is unspecified; no claim depends on it). -/
def allCourses (cf cb : List (String × ℚ)) : List String :=
  (cf.map Prod.fst ++ cb.map Prod.fst).dedup

/-- The per-course hybrid combination of `recommend` (predict.py lines
181-187): `cf_score / 4.0` only when strictly positive, else `0`; content
score used as-is; weighted sum. -/
def hybridScore (cfv cbv cfw cbw : ℚ) : ℚ :=
  cfw * (if 0 < cfv then cfv / 4 else 0) + cbw * cbv

/-- The `hybrid_scores` dict of `recommend` (predict.py lines 179-188):
one entry per candidate course, components defaulting to `0` via
`.get(course_id, 0)` when a course is missing from a mapping. -/
def hybridScores (cf cb : List (String × ℚ)) (cfw cbw : ℚ) : List (String × ℚ) :=
  (allCourses cf cb).map
    (fun c => (c, hybridScore ((cf.lookup c).getD 0) ((cb.lookup c).getD 0) cfw cbw))

/-- `CourseRecommender.recommend` (predict.py lines 153-196): collaborative
scores with the default `k = 10`, content scores, hybrid combination,
stable sort descending by score, truncate to `n`.  The Python defaults are
`n = 10`, `cf_weight = 0.6`, `cb_weight = 0.4`; here they are explicit
arguments. -/
def recommend (A : RecommenderArtifact) (simRow : ℕ → ℚ) (s : String)
    (enrolled_courses : List String) (n : ℕ) (cfw cbw : ℚ) : List (String × ℚ) :=
  (List.insertionSort (fun p q : String × ℚ => q.2 ≤ p.2)
    (hybridScores (get_collaborative_scores A s 10)
      (get_content_based_scores A.course_ids simRow enrolled_courses) cfw cbw)).take n

/-- `(self.user_item_matrix > 0).sum(axis=0)` for one course column
(predict.py line 200): the number of students with a strictly positive cell
in that column. -/
def coursePopularity (A : RecommenderArtifact) (c : String) : ℕ :=
  (A.students.filter (fun u => decide (0 < A.cell u c))).length

/-- `CourseRecommender.get_popular_courses` (predict.py lines 198-202):
`course_popularity.nlargest(n).index.tolist()`. -/
def get_popular_courses (A : RecommenderArtifact) (n : ℕ) : List String :=
  nlargestIdx n A.courses (fun c => (coursePopularity A c : ℚ))


/-- Concrete artifact for the all-zero-row scenario: student `"s"` is
present in the user-item matrix with a row of zeros, student `"t"` rated
course `"c"` 3.0.  The similarity matrix is the cosine artifact for these
rows (every similarity touching the zero row is `0`, sklearn's zero-vector
convention). -/
def zeroRowArtifact : RecommenderArtifact where
  students := ["s", "t"]
  courses := ["c"]
  cell := fun u _ => if u = "t" then 3 else 0
  sim := fun u v => if u = "t" ∧ v = "t" then 1 else 0
  course_ids := []

/-- Concrete artifact for the single-contributing-neighbor scenario:
students `"s"` and `"t"` both completed `"c0"` with grade 3.0, `"t"` also
completed `"X"` with grade 3.5, `"s"` has not rated `"X"`. -/
def twinArtifact : RecommenderArtifact where
  students := ["s", "t"]
  courses := ["c0", "X"]
  cell := fun u c => if c = "c0" then 3 else if u = "t" then 7/2 else 0
  sim := fun _ _ => 1
  course_ids := []


/-- Concrete artifact for the neighbor-selection tie scenario: students
`"t"` and `"s"` have identical rating vectors (both completed `"c"` with
grade 3.0), so every cosine similarity is `1.0`, and `"t"` precedes `"s"`
in the matrix row order. -/
def tiedTwinArtifact : RecommenderArtifact where
  students := ["t", "s"]
  courses := ["c"]
  cell := fun _ _ => 3
  sim := fun _ _ => 1
  course_ids := []

/-- Concrete artifact where the target `"s"` is the unique strict maximum
of its similarity column: self-similarity 1, `"t"` at 1/2, `"u"` at 1/4. -/
def strictMaxArtifact : RecommenderArtifact where
  students := ["s", "t", "u"]
  courses := []
  cell := fun _ _ => 0
  sim := fun a b => if a = b then 1 else if a = "u" ∨ b = "u" then 1/4 else 1/2
  course_ids := []


/-- Concrete artifact with a popularity tie: one student completed both
courses, so both columns have count 1. -/
def tiedPopularityArtifact : RecommenderArtifact where
  students := ["u"]
  courses := ["c1", "c2"]
  cell := fun _ _ => 3
  sim := fun _ _ => 1
  course_ids := []

/-- Concrete artifact for the enrolled-course recommendation scenario:
the caller reports `"X"` as enrolled, but the user-item cell of `"s"` for
`"X"` is `0` (the enrollment is not completed), while neighbor `"t"`
completed `"X"` with grade 3; the course-feature matrix is empty, so the
content scorer takes its cold-start branch. -/
def enrolledLeakArtifact : RecommenderArtifact where
  students := ["s", "t"]
  courses := ["X"]
  cell := fun u _ => if u = "t" then 3 else 0
  sim := fun _ _ => 1
  course_ids := []

/-- Concrete artifact for the content cold-start candidate set: the
student `"s"` is alone, the only matrix column and feature-matrix course
is `"Y"`, and the enrolled course `"X"` appears nowhere in the artifact. -/
def coldStartArtifact : RecommenderArtifact where
  students := ["s"]
  courses := ["Y"]
  cell := fun _ _ => 0
  sim := fun _ _ => 1
  course_ids := ["Y"]


/-! ## Helper lemmas -/

/-- Looking up a key in an association list built by mapping each key of a
key list to a pair returns the mapped value, for any key in the key list
(duplicates are harmless: the value is a function of the key). -/
theorem lookup_map_pair (f : String → ℚ) (l : List String) (c : String) (hc : c ∈ l) :
    (l.map (fun x => (x, f x))).lookup c = some (f c) := by
  induction l with
  | nil => simp at hc
  | cons a l ih =>
    by_cases h : c = a
    · subst h
      simp [List.lookup]
    · rcases List.mem_cons.mp hc with h' | h'
      · exact absurd h' h
      · simpa [List.lookup, beq_eq_false_iff_ne.mpr h] using ih h'


/-- Sorting a list whose unique strict maximum (by `val`) is `s` with the
descending comparison used by `nlargestIdx` puts `s` first, and the tail
is sorted, free of `s`, and drawn from the original list. -/
theorem insertionSort_strict_max (l : List String) (val : String → ℚ) (s : String)
    (hnd : l.Nodup) (hs : s ∈ l) (hmax : ∀ u ∈ l, u ≠ s → val u < val s) :
    ∃ t, List.insertionSort (fun a b => val b ≤ val a) l = s :: t ∧
      s ∉ t ∧ List.Sorted (fun a b => val b ≤ val a) t ∧ ∀ u ∈ t, u ∈ l := by
  haveI : IsTotal String (fun a b => val b ≤ val a) := ⟨fun a b => le_total (val b) (val a)⟩
  haveI : IsTrans String (fun a b => val b ≤ val a) :=
    ⟨fun a b c hab hbc => le_trans hbc hab⟩
  have hperm := List.perm_insertionSort (fun a b => val b ≤ val a) l
  have hsorted := List.sorted_insertionSort (fun a b => val b ≤ val a) l
  have hndL : (List.insertionSort (fun a b => val b ≤ val a) l).Nodup :=
    hperm.nodup_iff.mpr hnd
  have hsL : s ∈ List.insertionSort (fun a b => val b ≤ val a) l := hperm.mem_iff.mpr hs
  obtain ⟨h, t, hht⟩ : ∃ h t, List.insertionSort (fun a b => val b ≤ val a) l = h :: t := by
    cases hL : List.insertionSort (fun a b => val b ≤ val a) l with
    | nil => rw [hL] at hsL; cases hsL
    | cons h t => exact ⟨h, t, rfl⟩
  rw [hht] at hperm hsorted hndL hsL
  have hhl : h ∈ l := hperm.subset (List.mem_cons_self h t)
  have hhs : h = s := by
    by_contra hne
    have hlt : val h < val s := hmax h hhl hne
    have hst : s ∈ t := by
      rcases List.mem_cons.mp hsL with h' | h'
      · exact absurd h'.symm hne
      · exact h'
    have hle : val s ≤ val h := (List.sorted_cons.mp hsorted).1 s hst
    exact absurd hle (not_le.mpr hlt)
  subst hhs
  exact ⟨t, hht, (List.nodup_cons.mp hndL).1, (List.sorted_cons.mp hsorted).2,
    fun u hu => hperm.subset (List.mem_cons_of_mem _ hu)⟩


end GradePred

namespace GradePredClaims
open GradePred


/-- C1: for every feature vector (and every model, scaler and nonnegative
ensemble standard deviation), the point estimate returned by
`GradePredictor.predict` lies in `[0, 4]`, and the grade range built by
the `predict_grade` endpoint satisfies `lower ≤ predicted_grade ≤ upper`
with both bounds in `[0, 4]`. -/
theorem predicted_grade_and_range_clamped (model : List ℚ → ℚ) (scaler : List ℚ → List ℚ)
    (names : List String) (stdDev : ℚ) (features : List (String × ℚ))
    (hstd : 0 ≤ stdDev) :
    0 ≤ (predict model scaler names stdDev features).1 ∧
    (predict model scaler names stdDev features).1 ≤ 4 ∧
    (gradeRange (predict model scaler names stdDev features).1
        (predict model scaler names stdDev features).2).1 ≤
      (predict model scaler names stdDev features).1 ∧
    (predict model scaler names stdDev features).1 ≤
      (gradeRange (predict model scaler names stdDev features).1
        (predict model scaler names stdDev features).2).2 ∧
    0 ≤ (gradeRange (predict model scaler names stdDev features).1
        (predict model scaler names stdDev features).2).1 ∧
    (gradeRange (predict model scaler names stdDev features).1
        (predict model scaler names stdDev features).2).1 ≤ 4 ∧
    0 ≤ (gradeRange (predict model scaler names stdDev features).1
        (predict model scaler names stdDev features).2).2 ∧
    (gradeRange (predict model scaler names stdDev features).1
        (predict model scaler names stdDev features).2).2 ≤ 4 := by
  unfold predict predictOnValues gradeRange clip
  set p := model (scaler (featureValues names features)) with hp
  dsimp only
  have hci : (0:ℚ) ≤ 196/100 * stdDev := by positivity
  have h0 : (0:ℚ) ≤ min 4 (max 0 p) := le_min (by norm_num) (le_max_left 0 p)
  have h4 : min 4 (max 0 p) ≤ 4 := min_le_left 4 (max 0 p)
  refine ⟨h0, h4, ?_, ?_, ?_, ?_, ?_, ?_⟩
  · exact max_le h0 (by linarith)
  · exact le_min h4 (by linarith)
  · exact le_max_left _ _
  · exact max_le (by norm_num) (by linarith)
  · exact le_min (by norm_num) (by linarith)
  · exact min_le_left _ _

/-- Witness for C1 at a concrete model, scaler and feature vector: model
is the sum of the scaled values, raw output `5` is clamped to `4`, the
range brackets the estimate within `[0, 4]`. -/
theorem predicted_grade_and_range_clamped_witness :
    (0:ℚ) ≤ 1/10 ∧
    (0 ≤ (predict (fun l => l.sum) id ["x"] (1/10) [("x", 5)]).1 ∧
     (predict (fun l => l.sum) id ["x"] (1/10) [("x", 5)]).1 ≤ 4 ∧
     (gradeRange (predict (fun l => l.sum) id ["x"] (1/10) [("x", 5)]).1
         (predict (fun l => l.sum) id ["x"] (1/10) [("x", 5)]).2).1 ≤
       (predict (fun l => l.sum) id ["x"] (1/10) [("x", 5)]).1 ∧
     (predict (fun l => l.sum) id ["x"] (1/10) [("x", 5)]).1 ≤
       (gradeRange (predict (fun l => l.sum) id ["x"] (1/10) [("x", 5)]).1
         (predict (fun l => l.sum) id ["x"] (1/10) [("x", 5)]).2).2 ∧
     0 ≤ (gradeRange (predict (fun l => l.sum) id ["x"] (1/10) [("x", 5)]).1
         (predict (fun l => l.sum) id ["x"] (1/10) [("x", 5)]).2).1 ∧
     (gradeRange (predict (fun l => l.sum) id ["x"] (1/10) [("x", 5)]).1
         (predict (fun l => l.sum) id ["x"] (1/10) [("x", 5)]).2).1 ≤ 4 ∧
     0 ≤ (gradeRange (predict (fun l => l.sum) id ["x"] (1/10) [("x", 5)]).1
         (predict (fun l => l.sum) id ["x"] (1/10) [("x", 5)]).2).2 ∧
     (gradeRange (predict (fun l => l.sum) id ["x"] (1/10) [("x", 5)]).1
         (predict (fun l => l.sum) id ["x"] (1/10) [("x", 5)]).2).2 ≤ 4) :=
  ⟨by norm_num,
   predicted_grade_and_range_clamped (fun l => l.sum) id ["x"] (1/10) [("x", 5)] (by norm_num)⟩

/-- C2 counterexample: the claim says the mapping sends `3.65` to `"B+"`,
but `grade_to_letter 3.65 = "A-"` (`3.65 ≥ 3.3`, first match wins), so the
claimed value is false. -/
theorem letter_of_365_counterexample :
    grade_to_letter (365/100) = "A-" ∧ ¬ grade_to_letter (365/100) = "B+" := by
  constructor <;> with_unfolding_all decide

/-- C2 amended: the letter mapping is the total deterministic function of
the fixed breakpoint table (inclusive lower bounds, top-down, first match
wins); in particular it maps `3.7` to `"A"`, `2.0` to `"C+"`, and `3.65`
to `"A-"` (not `"B+"`). -/
theorem letter_mapping_matches_table :
    (∀ g : ℚ, grade_to_letter g = letterOfTable g) ∧
    grade_to_letter (37/10) = "A" ∧ grade_to_letter 2 = "C+" ∧
    grade_to_letter (365/100) = "A-" := by
  refine ⟨fun g => ?_, by with_unfolding_all decide, by with_unfolding_all decide,
    by with_unfolding_all decide⟩
  unfold grade_to_letter letterOfTable letterBreakpoints
  split_ifs with h1 h2 h3 h4 h5 h6 h7 h8 h9 <;>
    simp_all [List.find?_cons, ge_iff_le]

/-- C9: `GradePredictor.predict` reads feature values in exactly the order
of the model's trained feature-name list, substituting `0` for every named
feature absent from the input dictionary (never failing), and the
prediction depends on the input only through the values at those names in
that order. -/
theorem predict_reads_features_in_order (model : List ℚ → ℚ) (scaler : List ℚ → List ℚ)
    (names : List String) (stdDev : ℚ) (f1 f2 : List (String × ℚ))
    (h : ∀ name ∈ names, (f1.lookup name).getD 0 = (f2.lookup name).getD 0) :
    predict model scaler names stdDev f1 = predict model scaler names stdDev f2 ∧
    featureValues names f1 = names.map (fun name => (f1.lookup name).getD 0) ∧
    featureValues names [] = names.map (fun _ => (0 : ℚ)) := by
  have he : featureValues names f1 = featureValues names f2 :=
    List.map_congr_left h
  exact ⟨by unfold predict; rw [he], rfl, by simp [featureValues]⟩

/-- Witness for C9: two dictionaries agreeing on the named features (the
second has an extra irrelevant key, the first lacks `"b"` which defaults
to `0`) yield the same prediction. -/
theorem predict_reads_features_in_order_witness :
    (∀ name ∈ (["a", "b"] : List String),
        (([("a", (1:ℚ))] : List (String × ℚ)).lookup name).getD 0 =
        (([("b", (0:ℚ)), ("a", 1), ("z", 9)] : List (String × ℚ)).lookup name).getD 0) ∧
    (predict (fun l => l.sum) id ["a", "b"] 0 [("a", 1)] =
      predict (fun l => l.sum) id ["a", "b"] 0 [("b", 0), ("a", 1), ("z", 9)] ∧
     featureValues ["a", "b"] [("a", (1:ℚ))] =
      (["a", "b"] : List String).map (fun name => (([("a", (1:ℚ))].lookup name)).getD 0) ∧
     featureValues ["a", "b"] [] = (["a", "b"] : List String).map (fun _ => (0 : ℚ))) :=
  ⟨by with_unfolding_all decide,
   predict_reads_features_in_order (fun l => l.sum) id ["a", "b"] 0
     [("a", 1)] [("b", 0), ("a", 1), ("z", 9)] (by with_unfolding_all decide)⟩

/-- C3 counterexample: student `"s"` is present in the user-item matrix
with an all-zero row, yet `get_collaborative_scores` returns the non-empty
mapping `[("c", 0)]` (one entry per course), not an empty mapping. -/
theorem zero_row_nonempty_scores_counterexample :
    "s" ∈ zeroRowArtifact.students ∧
    (∀ c ∈ zeroRowArtifact.courses, zeroRowArtifact.cell "s" c = 0) ∧
    get_collaborative_scores zeroRowArtifact "s" 10 ≠ [] ∧
    get_collaborative_scores zeroRowArtifact "s" 10 = [("c", 0)] := by
  refine ⟨by decide, by with_unfolding_all decide, by with_unfolding_all decide,
    by with_unfolding_all decide⟩

/-- C3 amended: for a student present in the user-item matrix with an
all-zero row, the collaborative scorer returns a mapping with one entry
per course of the matrix (every course is unrated), not an empty mapping;
when, as in the cosine artifact produced for a zero row, the stored
similarities from that student are all zero, every entry's score is `0`.
An empty mapping is returned only for students without a row. -/
theorem zero_row_scores_amended (A : RecommenderArtifact) (s : String) (k : ℕ)
    (hs : s ∈ A.students) (hzero : ∀ c ∈ A.courses, A.cell s c = 0) :
    (get_collaborative_scores A s k).map Prod.fst = A.courses ∧
    ((∀ u, A.sim s u = 0) → ∀ p ∈ get_collaborative_scores A s k, p.2 = 0) := by
  have hfilter : A.courses.filter (fun c => decide (¬ 0 < A.cell s c)) = A.courses := by
    apply List.filter_eq_self.mpr
    intro c hc
    simp [hzero c hc]
  constructor
  · unfold get_collaborative_scores
    rw [if_pos hs, hfilter, List.map_map]
    have hid : (Prod.fst ∘ fun c => (c, collabScore A s (similarUsers A s k) c)) = id := rfl
    rw [hid, List.map_id]
  · intro hsim p hp
    unfold get_collaborative_scores at hp
    rw [if_pos hs, hfilter] at hp
    obtain ⟨c, _, rfl⟩ := List.mem_map.mp hp
    show collabScore A s (similarUsers A s k) c = 0
    unfold collabScore
    by_cases hemp : (similarUsers A s k).filter (fun u => decide (0 < A.cell u c)) = []
    · simp [hemp]
    · rw [if_neg hemp]
      have hz : (((similarUsers A s k).filter (fun u => decide (0 < A.cell u c))).map
          (fun u => A.sim s u)).sum = 0 := by
        have hmap : ((similarUsers A s k).filter (fun u => decide (0 < A.cell u c))).map
            (fun u => A.sim s u) =
            ((similarUsers A s k).filter (fun u => decide (0 < A.cell u c))).map
            (fun _ => (0:ℚ)) :=
          List.map_congr_left (fun u _ => hsim u)
        rw [hmap]
        simp
      rw [hz]
      norm_num

/-- Witness for C3 amended, at the concrete zero-row artifact: the scorer
returns one entry per course and every score is `0`. -/
theorem zero_row_scores_amended_witness :
    (get_collaborative_scores zeroRowArtifact "s" 10).map Prod.fst = zeroRowArtifact.courses ∧
    ∀ p ∈ get_collaborative_scores zeroRowArtifact "s" 10, p.2 = 0 := by
  have h := zero_row_scores_amended zeroRowArtifact "s" 10 (by decide)
    (by with_unfolding_all decide)
  exact ⟨h.1, h.2 (fun u => by simp [zeroRowArtifact])⟩

/-- C4: for a student with a row in the matrix and a course the student
has not rated, the collaborative score is `0` when no selected neighbor
has a positive rating for the course, and otherwise is
`sum(rating * similarity) / sum(similarity)` over the neighbors with
positive ratings, `0` when the similarity sum is not positive; with
exactly one contributing neighbor of positive similarity who rated the
course 3.5, the score is exactly 3.5. -/
theorem collaborative_score_formula (A : RecommenderArtifact) (s : String) (k : ℕ)
    (course : String) (hs : s ∈ A.students) (hc : course ∈ A.courses)
    (hunrated : A.cell s course = 0) :
    ((get_collaborative_scores A s k).lookup course =
      some (
        if (similarUsers A s k).filter (fun u => decide (0 < A.cell u course)) = [] then 0
        else
          if 0 < (((similarUsers A s k).filter (fun u => decide (0 < A.cell u course))).map
              (fun u => A.sim s u)).sum
          then (((similarUsers A s k).filter (fun u => decide (0 < A.cell u course))).map
              (fun u => A.cell u course * A.sim s u)).sum /
            (((similarUsers A s k).filter (fun u => decide (0 < A.cell u course))).map
              (fun u => A.sim s u)).sum
          else 0)) ∧
    ∀ u : String, (similarUsers A s k).filter (fun u => decide (0 < A.cell u course)) = [u] →
      0 < A.sim s u → A.cell u course = 7/2 →
      (get_collaborative_scores A s k).lookup course = some (7/2) := by
  have hmem : course ∈ A.courses.filter (fun c => decide (¬ 0 < A.cell s c)) :=
    List.mem_filter.mpr ⟨hc, by simp [hunrated]⟩
  have h1 : (get_collaborative_scores A s k).lookup course =
      some (collabScore A s (similarUsers A s k) course) := by
    unfold get_collaborative_scores
    rw [if_pos hs]
    exact lookup_map_pair _ _ _ hmem
  constructor
  · rw [h1]
    rfl
  · intro u hu hpos hcell
    rw [h1]
    unfold collabScore
    rw [hu]
    have hne : u ∉ ([] : List String) := List.not_mem_nil u
    simp only [List.map_cons, List.map_nil, List.sum_cons, List.sum_nil, add_zero,
      hcell, if_pos hpos]
    rw [if_neg (by simp)]
    rw [mul_div_assoc, div_self (ne_of_gt hpos), mul_one]

/-- Witness for C4 at the twin-students artifact: the single contributing
neighbor `"t"` (similarity 1) rated `"X"` 3.5, and the collaborative score
of `"X"` for `"s"` is exactly 3.5. -/
theorem collaborative_score_formula_witness :
    (get_collaborative_scores twinArtifact "s" 10).lookup "X" = some (7/2) :=
  (collaborative_score_formula twinArtifact "s" 10 "X" (by decide) (by decide)
    (by with_unfolding_all decide)).2 "t" (by with_unfolding_all decide)
    (by with_unfolding_all decide) (by with_unfolding_all decide)

/-- C5 counterexample: with two students of identical rating vectors (all
similarities `1.0`) and the target `"s"` occurring after `"t"` in the
matrix row order, `nlargest(k+1).index[1:]` drops first-ranked `"t"` and
keeps the target `"s"` itself as a neighbor: the neighbor set contains the
target student and misses the most-similar other student. -/
theorem neighbor_includes_self_counterexample :
    "s" ∈ similarUsers tiedTwinArtifact "s" 10 ∧
    "t" ∉ similarUsers tiedTwinArtifact "s" 10 := by
  constructor <;> with_unfolding_all decide

/-- C5 amended: the neighbor list is the top-`k+1` students of the
similarity column, descending (ties in matrix row order), with the
first-ranked entry dropped.  Whenever the target student is the unique
strict maximum of its own similarity column (the generic case,
self-similarity `1.0` strictly above all others), the dropped entry is the
target itself, so the neighbor list never contains the target, consists of
other students of the matrix, has length at most `k`, is sorted by
similarity descending, and dominates: every non-selected other student has
similarity at most that of every selected neighbor.  Under ties at the
maximum the target can remain (see the counterexample). -/
theorem neighbor_selection_amended (A : RecommenderArtifact) (s : String) (k : ℕ)
    (hnd : A.students.Nodup) (hs : s ∈ A.students)
    (hmax : ∀ u ∈ A.students, u ≠ s → A.sim u s < A.sim s s) :
    s ∉ similarUsers A s k ∧
    (∀ u ∈ similarUsers A s k, u ∈ A.students ∧ u ≠ s) ∧
    (similarUsers A s k).length ≤ k ∧
    List.Sorted (fun a b => A.sim b s ≤ A.sim a s) (similarUsers A s k) ∧
    (∀ v ∈ A.students, v ≠ s → v ∉ similarUsers A s k →
      ∀ u ∈ similarUsers A s k, A.sim v s ≤ A.sim u s) := by
  obtain ⟨t, hsort, hst, hsorted_t, htl⟩ :=
    insertionSort_strict_max A.students (fun u => A.sim u s) s hnd hs hmax
  have hsim : similarUsers A s k = t.take k := by
    unfold similarUsers nlargestIdx
    rw [hsort]
    rfl
  rw [hsim]
  have htake : ∀ u ∈ t.take k, u ∈ t := fun u hu => List.take_subset k t hu
  refine ⟨fun hmem => hst (htake s hmem), ?_, ?_, ?_, ?_⟩
  · intro u hu
    refine ⟨htl u (htake u hu), ?_⟩
    rintro rfl
    exact hst (htake u hu)
  · rw [List.length_take]
    exact min_le_left k t.length
  · exact List.Pairwise.sublist (List.take_sublist k t) hsorted_t
  · intro v hv hvs hvnot u hu
    have hvL : v ∈ s :: t := by
      have := (List.perm_insertionSort (fun a b => A.sim b s ≤ A.sim a s) A.students)
      rw [hsort] at this
      exact this.symm.subset hv
    have hvt : v ∈ t := by
      rcases List.mem_cons.mp hvL with h' | h'
      · exact absurd h' hvs
      · exact h'
    have hvdrop : v ∈ t.drop k := by
      have := List.take_append_drop k t
      rcases List.mem_append.mp (this ▸ hvt) with h' | h'
      · exact absurd h' hvnot
      · exact h'
    have hpair : List.Pairwise (fun a b => A.sim b s ≤ A.sim a s) (t.take k ++ t.drop k) := by
      rw [List.take_append_drop]
      exact hsorted_t
    exact (List.pairwise_append.mp hpair).2.2 u hu v hvdrop

/-- Witness for C5 amended at the strict-maximum artifact with `k = 1`:
the neighbor list is exactly the most-similar other student, sorted, of
length at most 1, self excluded, dominating the non-selected student. -/
theorem neighbor_selection_amended_witness :
    "s" ∉ similarUsers strictMaxArtifact "s" 1 ∧
    (∀ u ∈ similarUsers strictMaxArtifact "s" 1, u ∈ strictMaxArtifact.students ∧ u ≠ "s") ∧
    (similarUsers strictMaxArtifact "s" 1).length ≤ 1 ∧
    List.Sorted (fun a b => strictMaxArtifact.sim b "s" ≤ strictMaxArtifact.sim a "s")
      (similarUsers strictMaxArtifact "s" 1) ∧
    (∀ v ∈ strictMaxArtifact.students, v ≠ "s" → v ∉ similarUsers strictMaxArtifact "s" 1 →
      ∀ u ∈ similarUsers strictMaxArtifact "s" 1,
        strictMaxArtifact.sim v "s" ≤ strictMaxArtifact.sim u "s") :=
  neighbor_selection_amended strictMaxArtifact "s" 1 (by decide) (by decide)
    (by with_unfolding_all decide)

/-- C6: for every course in the candidate set (the union of the
collaborative and content mappings' keys), the hybrid score is
`cf_weight * (cf/4 if cf > 0 else 0) + cb_weight * cb`, a course absent
from one mapping contributing `0` for that component via
`.get(course_id, 0)`; the weights are arbitrary (the Python defaults are
0.6/0.4 and nothing requires them to sum to 1), and the candidate set is
exactly the union of the two key sets. -/
theorem hybrid_score_formula (cf cb : List (String × ℚ)) (cfw cbw : ℚ) (course : String)
    (h : course ∈ allCourses cf cb) :
    (hybridScores cf cb cfw cbw).lookup course =
      some (cfw * (if 0 < (cf.lookup course).getD 0 then (cf.lookup course).getD 0 / 4 else 0)
        + cbw * (cb.lookup course).getD 0) ∧
    (∀ c : String, c ∈ allCourses cf cb ↔ ((∃ q, (c, q) ∈ cf) ∨ ∃ q, (c, q) ∈ cb)) := by
  constructor
  · unfold hybridScores
    rw [lookup_map_pair _ _ _ h]
    rfl
  · intro c
    unfold allCourses
    rw [List.mem_dedup, List.mem_append]
    constructor
    · rintro (h' | h')
      · obtain ⟨p, hp, rfl⟩ := List.mem_map.mp h'
        exact Or.inl ⟨p.2, hp⟩
      · obtain ⟨p, hp, rfl⟩ := List.mem_map.mp h'
        exact Or.inr ⟨p.2, hp⟩
    · rintro (⟨q, hq⟩ | ⟨q, hq⟩)
      · exact Or.inl (List.mem_map.mpr ⟨(c, q), hq, rfl⟩)
      · exact Or.inr (List.mem_map.mpr ⟨(c, q), hq, rfl⟩)

/-- Witness for C6: course `"a"` appears only in the collaborative mapping
(score 2, normalized to 1/2), course `"b"` only in the content mapping;
with weights 3/5 and 2/5 the hybrid score of `"a"` is 3/10. -/
theorem hybrid_score_formula_witness :
    (hybridScores [("a", (2:ℚ))] [("b", (1:ℚ)/2)] (3/5) (2/5)).lookup "a" =
      some ((3:ℚ)/5 * (if 0 < (([("a", (2:ℚ))] : List (String × ℚ)).lookup "a").getD 0
          then (([("a", (2:ℚ))] : List (String × ℚ)).lookup "a").getD 0 / 4 else 0)
        + 2/5 * (([("b", (1:ℚ)/2)] : List (String × ℚ)).lookup "a").getD 0) :=
  (hybrid_score_formula [("a", (2:ℚ))] [("b", (1:ℚ)/2)] (3/5) (2/5) "a"
    (by with_unfolding_all decide)).1

/-- C7: whenever the enrolled list is empty, or no enrolled course ID
occurs in the feature matrix's course-ID list, the content scorer assigns
the flat score 0.5 to every course of the feature matrix (nothing is
excluded, so any enrolled course that were listed would be covered too);
otherwise (some enrolled course is in the list) every enrolled course is
excluded from the result mapping entirely. -/
theorem content_scores_cold_start_and_exclusion (course_ids : List String) (simRow : ℕ → ℚ)
    (enrolled : List String) :
    ((enrolled = [] ∨ ∀ c ∈ course_ids, c ∉ enrolled) →
      get_content_based_scores course_ids simRow enrolled =
        course_ids.map (fun c => (c, 1/2))) ∧
    ((∃ c ∈ course_ids, c ∈ enrolled) →
      ∀ p ∈ get_content_based_scores course_ids simRow enrolled, p.1 ∉ enrolled) := by
  constructor
  · intro hcold
    unfold get_content_based_scores
    rcases hcold with hemp | hnone
    · rw [if_pos (by simp [hemp])]
    · by_cases hemp : enrolled.isEmpty
      · rw [if_pos hemp]
      · rw [if_neg hemp]
        have hnil : (course_ids.enum.filter
            (fun p => decide (p.2 ∈ enrolled))).map Prod.fst = [] := by
          rw [List.filter_eq_nil_iff.mpr, List.map_nil]
          intro p hp
          have hp2 : p.2 ∈ course_ids := by
            have := List.enum_map_snd course_ids
            exact this ▸ List.mem_map.mpr ⟨p, hp, rfl⟩
          simp [hnone p.2 hp2]
        simp [hnil]
  · intro ⟨c, hc, hcen⟩ p hp
    unfold get_content_based_scores at hp
    have hemp : enrolled.isEmpty = false := by
      cases enrolled with
      | nil => cases hcen
      | cons a l => rfl
    rw [hemp] at hp
    simp only [Bool.false_eq_true, if_false] at hp
    have hcin : ∃ q ∈ course_ids.enum, q.2 = c := by
      have h2 := List.enum_map_snd course_ids
      rw [← h2] at hc
      exact List.mem_map.mp hc
    obtain ⟨q, hq, hq2⟩ := hcin
    have hne : ¬ (course_ids.enum.filter
        (fun p => decide (p.2 ∈ enrolled))).map Prod.fst = [] := by
      intro hnil
      have : q ∈ course_ids.enum.filter (fun p => decide (p.2 ∈ enrolled)) :=
        List.mem_filter.mpr ⟨hq, by simp [hq2, hcen]⟩
      rw [List.map_eq_nil_iff.mp hnil] at this
      cases this
    rw [if_neg (by simpa [List.isEmpty_iff] using hne)] at hp
    obtain ⟨r, hr, hrp⟩ := List.mem_map.mp hp
    have := List.mem_filter.mp hr
    rw [← hrp]
    simpa using this.2

/-- Witness for C7: with course list `["a", "b"]`, cold start for enrolled
`["z"]` (not in the list) yields the flat 0.5 map; for enrolled `["a"]`
(in the list) no returned key is enrolled. -/
theorem content_scores_cold_start_and_exclusion_witness :
    get_content_based_scores ["a", "b"] (fun _ => 0) ["z"] =
      (["a", "b"] : List String).map (fun c => (c, 1/2)) ∧
    ∀ p ∈ get_content_based_scores ["a", "b"] (fun _ => 0) ["a"], p.1 ∉ (["a"] : List String) :=
  ⟨(content_scores_cold_start_and_exclusion ["a", "b"] (fun _ => 0) ["z"]).1
      (Or.inr (by decide)),
   (content_scores_cold_start_and_exclusion ["a", "b"] (fun _ => 0) ["a"]).2
      ⟨"a", by decide, by decide⟩⟩

/-- C8 counterexample: with two courses tied at one completed enrollment
each, `get_popular_courses` returns both, so the output is not strictly
ordered by count (the counts are equal, not strictly decreasing). -/
theorem popular_courses_not_strict_counterexample :
    get_popular_courses tiedPopularityArtifact 2 = ["c1", "c2"] ∧
    coursePopularity tiedPopularityArtifact "c1" = coursePopularity tiedPopularityArtifact "c2" ∧
    ¬ List.Pairwise (fun c d =>
        coursePopularity tiedPopularityArtifact d < coursePopularity tiedPopularityArtifact c)
      (get_popular_courses tiedPopularityArtifact 2) := by
  refine ⟨by with_unfolding_all decide, by decide, by with_unfolding_all decide⟩

/-- C8 amended: for every artifact and every `n`, the popularity fallback
returns at most `n` course IDs drawn from the matrix columns, ordered by
the count of strictly positive entries in each course's column,
non-increasing (descending with ties kept in column order), not strictly
decreasing. -/
theorem popular_courses_sorted_amended (A : RecommenderArtifact) (n : ℕ) :
    (get_popular_courses A n).length ≤ n ∧
    List.Pairwise (fun c d => coursePopularity A d ≤ coursePopularity A c)
      (get_popular_courses A n) ∧
    ∀ c ∈ get_popular_courses A n, c ∈ A.courses := by
  haveI : IsTotal String (fun a b : String =>
      ((coursePopularity A b : ℚ)) ≤ (coursePopularity A a : ℚ)) :=
    ⟨fun a b => le_total _ _⟩
  haveI : IsTrans String (fun a b : String =>
      ((coursePopularity A b : ℚ)) ≤ (coursePopularity A a : ℚ)) :=
    ⟨fun _ _ _ hab hbc => le_trans hbc hab⟩
  have hsorted := List.sorted_insertionSort
    (fun a b : String => ((coursePopularity A b : ℚ)) ≤ (coursePopularity A a : ℚ)) A.courses
  have hperm := List.perm_insertionSort
    (fun a b : String => ((coursePopularity A b : ℚ)) ≤ (coursePopularity A a : ℚ)) A.courses
  refine ⟨?_, ?_, ?_⟩
  · unfold get_popular_courses nlargestIdx
    rw [List.length_take]
    exact min_le_left _ _
  · have hp : List.Pairwise (fun a b : String =>
        ((coursePopularity A b : ℚ)) ≤ (coursePopularity A a : ℚ))
        (get_popular_courses A n) :=
      List.Pairwise.sublist (List.take_sublist _ _) hsorted
    exact hp.imp (fun h => by exact_mod_cast h)
  · intro c hc
    have : c ∈ List.insertionSort
        (fun a b : String => ((coursePopularity A b : ℚ)) ≤ (coursePopularity A a : ℚ))
        A.courses :=
      List.take_subset _ _ hc
    exact hperm.subset this

/-- C10 counterexample: at a concrete artifact where the content scorer
takes its cold-start branch (enrolled `"X"` absent from the feature
matrix), the flat 0.5 mapping covers only feature-matrix courses, the
enrolled course does not enter the candidate set at all, and `recommend`
returns no enrolled course — refuting the claimed mechanism that enrolled
courses enter the candidate set with hybrid score `cb_weight * 0.5` in
that branch. -/
theorem enrolled_course_mechanism_counterexample :
    get_content_based_scores coldStartArtifact.course_ids (fun _ => 0) ["X"] =
      [("Y", 1/2)] ∧
    "X" ∉ allCourses (get_collaborative_scores coldStartArtifact "s" 10)
      (get_content_based_scores coldStartArtifact.course_ids (fun _ => 0) ["X"]) ∧
    ∀ p ∈ recommend coldStartArtifact (fun _ => 0) "s" ["X"] 10 (3/5) (2/5),
      p.1 ∉ (["X"] : List String) := by
  refine ⟨by with_unfolding_all decide, by with_unfolding_all decide,
    by with_unfolding_all decide⟩

/-- C10 amended: there exist artifacts and inputs for which
`CourseRecommender.recommend` returns a course in the caller-supplied
enrolled list — not via the content cold-start branch (whose flat 0.5 map
covers only feature-matrix courses, never the missing enrolled ones), but
via the collaborative scorer: an enrolled course whose user-item cell for
the student is 0 (e.g. an enrollment that is not completed) is scored by
collaborative filtering, enters the candidate set, and `recommend`
performs no filtering of enrolled courses before truncating to `n`. -/
theorem enrolled_course_recommended_amended :
    ("X", (9:ℚ)/20) ∈ recommend enrolledLeakArtifact (fun _ => 0) "s" ["X"] 10 (3/5) (2/5) ∧
    "X" ∈ (["X"] : List String) ∧
    enrolledLeakArtifact.cell "s" "X" = 0 := by
  refine ⟨by with_unfolding_all decide, by decide, by with_unfolding_all decide⟩

end GradePredClaims
